import Mathlib

/-!
Shallow embedding of the `azizo-core` display-controller crate
(`src/azizo-core/src/{state,error,modes,controller,mock}.rs`).

Modelling conventions:
* Rust `i32`/`i64` atomics and locals become `Int`; `u8` fields become `Nat`
  (a Rust `as u8` cast is `(x % 256).toNat`, and wrapping `u8` subtraction is
  made explicit where it occurs).
* Rust `i32` division and remainder truncate toward zero, so they are embedded
  as `Int.tdiv` / `Int.tmod`.
* The native RPC session is external: its per-symbol outcome is passed in as an
  oracle function, and the values handed to a native entry point are returned
  explicitly so that theorems can speak about what the native side receives.
* The `f32` arithmetic in the dimming conversions is embedded as exact
  arithmetic with round-half-away-from-zero, which agrees with the `f32`
  computation on the ranges involved: every exact intermediate value
  `(c-40)*100/60` (fraction 0, 1/3 or 2/3) and `p*60/100` (fraction a multiple
  of 1/5) lies at distance at least 1/10 from the nearest rounding boundary
  `k + 1/2`, far above the `f32` error bound (about 2e-5) on values below 100.
-/

deriving instance DecidableEq for Except

namespace Azizo

/-- Error taxonomy of `error.rs` (`ControllerError`). Payloads irrelevant to
the claims (the `libloading` error inside `DllLoad`, the io error inside `Io`)
are dropped. -/
inductive ControllerError where
  | PackageNotFound (code : Nat)
  | PackagePathError (code : Nat)
  | DllLoad
  | RpcInitFailed
  | AlreadyInitialized
  | InvalidSliderValue (mode : String) (value : Nat) (lo : Nat) (hi : Nat)
  | Io
  | ModeNotDetected
  | DimmingFailed (code : Int)
deriving DecidableEq, Repr

/-- Snapshot record of `state.rs` (`ControllerState`). -/
structure ControllerState where
  mode_id : Int
  is_monochrome : Bool
  dimming : Int
  manual_slider : Nat
  eyecare_level : Nat
  ereading_grayscale : Nat
  ereading_temp : Nat
  last_non_ereading_mode : Int
deriving DecidableEq, Repr

/-- The global atomics of `controller.rs::callback_state`, with their
initial values. `AtomicI32` fields are `Int`, the `AtomicBool` is `Bool`. -/
structure CallbackState where
  current_mode : Int := -1
  is_monochrome : Bool := false
  last_non_ereading_mode : Int := 1
  manual_slider : Int := 50
  eyecare_slider : Int := 2
  ereading_grayscale : Int := 3
  ereading_temp : Int := 562
  current_dimming : Int := -1
deriving DecidableEq, Repr

/-- Initial values of the callback-state atomics. -/
def initCallbackState : CallbackState := {}

/-- Rust `as u8` cast from `i32`: the low 8 bits. -/
def u8_of_i32 (x : Int) : Nat := (x % 256).toNat

/-- Wrapping `u8` subtraction (release-mode overflow semantics); inputs are
`u8` values, i.e. below 256. Debug builds panic instead when `a < b`. -/
def u8_wrapping_sub (a b : Nat) : Nat := (a + (256 - b % 256)) % 256

/-- Two's-complement wrap-around of `i32` addition results (release-mode
overflow semantics). -/
def wrap32 (x : Int) : Int := (x + 2 ^ 31) % 2 ^ 32 - 2 ^ 31

/-- Model of `str::parse::<i32>`: `String.toInt?` restricted to the `i32`
range. -/
def parse_i32 (s : String) : Option Int :=
  match s.toInt? with
  | some n => if -(2 ^ 31) ≤ n ∧ n < 2 ^ 31 then some n else none
  | none => none

/-- Snapshot function `callback_state::snapshot`: the `u8` fields of the
snapshot are `as u8` casts of the `i32` atomics. -/
def CallbackState.snapshot (g : CallbackState) : ControllerState :=
  { mode_id := g.current_mode
    is_monochrome := g.is_monochrome
    dimming := g.current_dimming
    manual_slider := u8_of_i32 g.manual_slider
    eyecare_level := u8_of_i32 g.eyecare_slider
    ereading_grayscale := u8_of_i32 g.ereading_grayscale
    ereading_temp := u8_of_i32 g.ereading_temp
    last_non_ereading_mode := g.last_non_ereading_mode }

/-- Callback receiver `callback_state::mode_callback`. A null string pointer
becomes the string "null" before any parsing, exactly as in the source. -/
def mode_callback (func : Int) (data : Int) (strData : Option String)
    (g : CallbackState) : CallbackState :=
  if func = 18 then
    let s := match strData with
      | none => "null"
      | some t => t
    let parts := s.splitOn ","
    let g1 := match parts[1]? with
      | some p =>
        match parse_i32 p with
        | some dimming => { g with current_dimming := dimming }
        | none => g
      | none => g
    let g2 := match parts[2]? with
      | some p =>
        match parse_i32 p with
        | some mono => { g1 with is_monochrome := mono ≠ 0 }
        | none => g1
      | none => g1
    { g2 with current_mode := data }
  else if func = 20 then
    { g with manual_slider := data }
  else if func = 21 then
    { g with eyecare_slider := data }
  else if func = 27 then
    let raw := wrap32 (data + 206)
    { g with ereading_grayscale := raw.tdiv 256, ereading_temp := raw.tmod 256 }
  else
    g

/-- Display-mode domain model of `modes.rs`: one variant per mode struct,
carrying exactly the data of that struct. -/
inductive DisplayMode where
  | normal
  | vivid
  | manual (value : Nat)
  | eyeCare (level : Nat)
  | eReading (grayscale : Nat) (temp : Nat)
deriving DecidableEq, Repr

/-- Value of the `DisplayMode::mode_id` trait method of each variant. -/
def DisplayMode.mode_id : DisplayMode → Int
  | .normal => 1
  | .vivid => 2
  | .manual _ => 6
  | .eyeCare _ => 7
  | .eReading _ _ => -1

/-- Value of the `DisplayMode::is_ereading` trait method of each variant. -/
def DisplayMode.is_ereading : DisplayMode → Bool
  | .eReading _ _ => true
  | _ => false

/-- Validated constructor `ManualMode::new`. -/
def ManualMode.new (value : Nat) : Except ControllerError DisplayMode :=
  if 100 < value then
    .error (.InvalidSliderValue "Manual" value 0 100)
  else
    .ok (.manual value)

/-- Validated constructor `EyeCareMode::new`. -/
def EyeCareMode.new (level : Nat) : Except ControllerError DisplayMode :=
  if 4 < level then
    .error (.InvalidSliderValue "EyeCare" level 0 4)
  else
    .ok (.eyeCare level)

/-- Validated constructor `EReadingMode::new`. -/
def EReadingMode.new (grayscale temp : Nat) : Except ControllerError DisplayMode :=
  if grayscale < 1 ∨ 5 < grayscale then
    .error (.InvalidSliderValue "EReading grayscale" grayscale 1 5)
  else
    .ok (.eReading grayscale temp)

/-- Unvalidated constructor `ManualMode::from_controller_state`. -/
def ManualMode.from_controller_state (st : ControllerState) : DisplayMode :=
  .manual st.manual_slider

/-- Unvalidated constructor `EyeCareMode::from_controller_state`. -/
def EyeCareMode.from_controller_state (st : ControllerState) : DisplayMode :=
  .eyeCare st.eyecare_level

/-- Unvalidated constructor `EReadingMode::from_controller_state`. -/
def EReadingMode.from_controller_state (st : ControllerState) : DisplayMode :=
  .eReading st.ereading_grayscale st.ereading_temp

/-- Hardware-facing grayscale computed by `EReadingMode::apply`: the `u8`
subtraction `self.grayscale - 1` (wrapping in release builds). -/
def EReadingMode.hw_grayscale (grayscale : Nat) : Nat := u8_wrapping_sub grayscale 1

/-- Packed value sent by `AsusController::set_monochrome_mode` for a
hardware grayscale and temperature. -/
def set_monochrome_value (hwGrayscale temp : Nat) : Int :=
  (hwGrayscale : Int) * 256 + (temp : Int) - 206

/-- Rust `i32::clamp(lo, hi)` for `lo ≤ hi`. -/
def clamp_i32 (x lo hi : Int) : Int := max lo (min x hi)

/-- Round half away from zero of `num / den` for `den > 0`: the embedding of
`f32::round` applied to the exact quotient (see the header comment for why
this agrees with the `f32` computation on the relevant ranges). -/
def roundHalfAway (num den : Int) : Int :=
  if 0 ≤ num then (2 * num + den) / (2 * den)
  else -((2 * (-num) + den) / (2 * den))

/-- Conversion `AsusController::dimming_to_percent`: clamp to splendid units
[40,100], then `(clamped - 40) / 60 * 100` rounded. -/
def dimming_to_percent (splendid_value : Int) : Int :=
  let clamped := clamp_i32 splendid_value 40 100
  roundHalfAway ((clamped - 40) * 100) 60

/-- Conversion `AsusController::percent_to_dimming`: `40 + percent / 100 * 60`
rounded. -/
def percent_to_dimming (percent : Int) : Int :=
  40 + roundHalfAway (percent * 60) 100

/-- Resolution `AsusController::mode_from_state`: match on the snapshot's
(mode identifier, monochrome flag); the monochrome arm also stores the
snapshot's mode identifier into the `LAST_NON_EREADING_MODE` atomic, so the
global callback state is threaded through and returned. -/
def mode_from_state (state : ControllerState) (g : CallbackState) :
    Except ControllerError DisplayMode × CallbackState :=
  match state.mode_id, state.is_monochrome with
  | 1, false => (.ok .normal, g)
  | 2, false => (.ok .vivid, g)
  | 6, false => (.ok (ManualMode.from_controller_state state), g)
  | 7, false => (.ok (EyeCareMode.from_controller_state state), g)
  | _, true => (.ok (EReadingMode.from_controller_state state),
      { g with last_non_ereading_mode := state.mode_id })
  | _, _ => (.error .ModeNotDetected, g)

/-- Restoration map `AsusController::restore_last_mode`. -/
def restore_last_mode (state : ControllerState) : DisplayMode :=
  match state.last_non_ereading_mode with
  | 2 => .vivid
  | 6 => ManualMode.from_controller_state state
  | 7 => EyeCareMode.from_controller_state state
  | _ => .normal

/-- Outcome of one `AsusController::set_dimming` call: the values handed to
the native set-dimming entry point, the callback state afterwards, and the
returned result. -/
structure SetDimmingOutcome where
  nativeArgs : List Int
  state : CallbackState
  result : Except ControllerError Unit
deriving Repr

/-- Command `AsusController::set_dimming`, with the native set-dimming entry
point abstracted as a result-code oracle `native`. The level is clamped to
[40,100] before the native call; a zero result code stores the clamped level
into the `CURRENT_DIMMING` atomic and succeeds, any other code is returned as
`DimmingFailed` with the atomics untouched. -/
def set_dimming (native : Int → Int) (g : CallbackState) (level : Int) :
    SetDimmingOutcome :=
  let lv := clamp_i32 level 40 100
  let r := native lv
  if r = 0 then
    ⟨[lv], { g with current_dimming := lv }, .ok ()⟩
  else
    ⟨[lv], g, .error (.DimmingFailed r)⟩

/-- Command `AsusController::set_dimming_percent`: clamp the percentage to
[0,100], convert, delegate to `set_dimming`. -/
def set_dimming_percent (native : Int → Int) (g : CallbackState) (percent : Int) :
    SetDimmingOutcome :=
  set_dimming native g (percent_to_dimming (clamp_i32 percent 0 100))

/-- Query issue step `AsusController::call_rpc_get`: resolving and calling a
named native getter, abstracted as a per-symbol oracle (a lookup failure is a
`DllLoad` error propagated by `?`; the returned status value is what the
native function returns and is ignored by every caller). -/
def call_rpc_get (lookup : String → Except ControllerError Int) (symbol : String) :
    Except ControllerError Int :=
  lookup symbol

/-- Command `AsusController::refresh_sliders`: three independent native
queries issued back to back, each propagating its own failure. -/
def refresh_sliders (lookup : String → Except ControllerError Int) :
    Except ControllerError Unit :=
  match call_rpc_get lookup "MyOptGetSplendidManualModeFunc" with
  | .error e => .error e
  | .ok _ =>
    match call_rpc_get lookup "MyOptGetSplendidEyecareModeFunc" with
    | .error e => .error e
    | .ok _ =>
      match call_rpc_get lookup "MyOptGetSplendidMonochromeFunc" with
      | .error e => .error e
      | .ok _ => .ok ()

/-- Query `AsusController::get_current_mode`: issue the mode query (failure
propagates), wait the settle interval (time is not modelled), then resolve the
snapshot via `mode_from_state`. -/
def get_current_mode (lookup : String → Except ControllerError Int)
    (g : CallbackState) : Except ControllerError DisplayMode × CallbackState :=
  match call_rpc_get lookup "MyOptGetSplendidColorModeFunc" with
  | .error e => (.error e, g)
  | .ok _ => mode_from_state g.snapshot g

/-- Command `AsusController::sync_all_sliders`: the result of the mode query
is discarded with `let _ = self.get_current_mode();` (its side effect on the
callback state remains), then `refresh_sliders` runs with `?`. -/
def sync_all_sliders (lookup : String → Except ControllerError Int)
    (g : CallbackState) : Except ControllerError Unit × CallbackState :=
  let queried := get_current_mode lookup g
  let g1 := queried.2
  match refresh_sliders lookup with
  | .error e => (.error e, g1)
  | .ok _ => (.ok (), g1)

/-- Constructor `AsusController::new`, with `init_internal` (package
resolution, DLL load, RPC initialisation, callback registration) abstracted
as its outcome `initResult`. The boolean is the `INSTANCE_EXISTS` guard:
`swap(true)` returning `true` fails with `AlreadyInitialized`; an
`init_internal` error stores `false` back before returning the error. -/
def controller_new (initResult : Except ControllerError Unit) (guard : Bool) :
    Except ControllerError Unit × Bool :=
  if guard then
    (.error .AlreadyInitialized, true)
  else
    match initResult with
    | .ok _ => (.ok (), true)
    | .error e => (.error e, false)

/-- Destructor `impl Drop for AsusController`: best-effort native teardown
(no observable effect in the model), then the guard is unconditionally
released. -/
def controller_drop (_guard : Bool) : Bool := false

/-- Initial state of `MockController::new` in `mock.rs`. -/
def mockInitialState : ControllerState :=
  { mode_id := 1
    is_monochrome := false
    dimming := 70
    manual_slider := 50
    eyecare_level := 2
    ereading_grayscale := 4
    ereading_temp := 50
    last_non_ereading_mode := 1 }

/-- Command `MockController::set_mode`: an e-reading mode captures the
current mode identifier into the last-non-e-reading field and raises the
monochrome flag; any other mode stores its identifier and clears the flag. -/
def MockController.set_mode (st : ControllerState) (m : DisplayMode) :
    ControllerState :=
  if m.is_ereading then
    { st with last_non_ereading_mode := st.mode_id, is_monochrome := true }
  else
    { st with mode_id := m.mode_id, is_monochrome := false }

/-- Query `MockController::get_current_mode`: same resolution table as
`mode_from_state` but without the side effect. -/
def MockController.get_current_mode (st : ControllerState) :
    Except ControllerError DisplayMode :=
  match st.mode_id, st.is_monochrome with
  | 1, false => .ok .normal
  | 2, false => .ok .vivid
  | 6, false => .ok (ManualMode.from_controller_state st)
  | 7, false => .ok (EyeCareMode.from_controller_state st)
  | _, true => .ok (EReadingMode.from_controller_state st)
  | _, _ => .error .ModeNotDetected

/-- Command `MockController::toggle_e_reading`: if the monochrome flag is
set, restore via the last-non-e-reading mapping, apply it and return it;
otherwise build the e-reading mode from the snapshot, apply it and return
it. -/
def MockController.toggle_e_reading (st : ControllerState) :
    DisplayMode × ControllerState :=
  if st.is_monochrome then
    let restored : DisplayMode :=
      match st.last_non_ereading_mode with
      | 2 => .vivid
      | 6 => ManualMode.from_controller_state st
      | 7 => EyeCareMode.from_controller_state st
      | _ => .normal
    (restored, MockController.set_mode st restored)
  else
    let ereading := EReadingMode.from_controller_state st
    (ereading, MockController.set_mode st ereading)

/-- Native-lookup oracle in which exactly the color-mode query fails (the
symbol cannot be resolved) and every other native call succeeds with status
zero. -/
def colorModeFailingLookup (s : String) : Except ControllerError Int :=
  if s = "MyOptGetSplendidColorModeFunc" then .error .DllLoad else .ok 0

/-! Theorems -/

/-- C9: constructing an EyeCare mode with a level greater than 4 fails with
`InvalidSliderValue` carrying min 0 and max 4, and constructing an EReading
mode with a grayscale outside [1,5] fails with `InvalidSliderValue` carrying
min 1 and max 5; values inside the ranges succeed. -/
theorem C9_slider_validation (level grayscale temp : Nat) :
    (4 < level →
      EyeCareMode.new level = .error (.InvalidSliderValue "EyeCare" level 0 4)) ∧
    (level ≤ 4 → EyeCareMode.new level = .ok (.eyeCare level)) ∧
    (grayscale < 1 ∨ 5 < grayscale →
      EReadingMode.new grayscale temp =
        .error (.InvalidSliderValue "EReading grayscale" grayscale 1 5)) ∧
    (1 ≤ grayscale → grayscale ≤ 5 →
      EReadingMode.new grayscale temp = .ok (.eReading grayscale temp)) := by
  refine ⟨fun h => ?_, fun h => ?_, fun h => ?_, fun h1 h2 => ?_⟩
  · simp [EyeCareMode.new, h]
  · simp [EyeCareMode.new, Nat.not_lt.mpr h]
  · unfold EReadingMode.new
    rw [if_pos h]
  · simp [EReadingMode.new]
    omega

/-- Witness for C9 at level 5 (failure), level 4 (success), grayscale 0 and 6
(failures) and grayscale 1 (success). -/
theorem C9_slider_validation_witness :
    EyeCareMode.new 5 = .error (.InvalidSliderValue "EyeCare" 5 0 4) ∧
    EyeCareMode.new 4 = .ok (.eyeCare 4) ∧
    EReadingMode.new 0 60 = .error (.InvalidSliderValue "EReading grayscale" 0 1 5) ∧
    EReadingMode.new 6 60 = .error (.InvalidSliderValue "EReading grayscale" 6 1 5) ∧
    EReadingMode.new 1 60 = .ok (.eReading 1 60) :=
  ⟨(C9_slider_validation 5 0 60).1 (by decide),
   (C9_slider_validation 4 0 60).2.1 (by decide),
   (C9_slider_validation 4 0 60).2.2.1 (by decide),
   (C9_slider_validation 4 6 60).2.2.1 (by decide),
   (C9_slider_validation 4 1 60).2.2.2 (by decide) (by decide)⟩

/-- C8: a callback with operation code 27 and integer payload d (within the
`i32` range, with the addition not overflowing) stores
grayscale = (d + 206) / 256 and temperature = (d + 206) % 256 under truncated
integer division, leaving every other field alone; in particular the payload
(3*256 + 60) - 206 yields grayscale 3 and temperature 60. -/
theorem C8_ereading_decode (d : Int) (strData : Option String) (g : CallbackState)
    (h1 : -(2 ^ 31) ≤ d + 206) (h2 : d + 206 < 2 ^ 31) :
    mode_callback 27 d strData g =
      { g with ereading_grayscale := (d + 206).tdiv 256
               ereading_temp := (d + 206).tmod 256 } ∧
    (mode_callback 27 ((3 * 256 + 60) - 206) strData g).ereading_grayscale = 3 ∧
    (mode_callback 27 ((3 * 256 + 60) - 206) strData g).ereading_temp = 60 := by
  have hw : ∀ x : Int, -(2 ^ 31) ≤ x → x < 2 ^ 31 → wrap32 x = x := by
    intro x hx1 hx2
    unfold wrap32
    omega
  refine ⟨?_, ?_, ?_⟩
  · simp only [mode_callback]
    norm_num [hw (d + 206) h1 h2]
  · simp only [mode_callback]
    norm_num [hw 828 (by norm_num) (by norm_num)]
    decide
  · simp only [mode_callback]
    norm_num [hw 828 (by norm_num) (by norm_num)]
    decide

/-- Witness for C8 at payload 622 = (3*256 + 60) - 206 from the initial
callback state. -/
theorem C8_ereading_decode_witness :
    (mode_callback 27 622 none initCallbackState).ereading_grayscale = 3 ∧
    (mode_callback 27 622 none initCallbackState).ereading_temp = 60 := by
  have h := (C8_ereading_decode 622 none initCallbackState (by decide) (by decide)).1
  rw [h]
  exact ⟨by decide, by decide⟩

/-- C10 (code bug): hardware reporting grayscale 0 through callback code 27
(payload (0*256 + 60) - 206, i.e. user-facing grayscale 1) puts 0 into the
snapshot's ereading_grayscale field; `EReadingMode::from_controller_state`
copies it unvalidated, `toggle_e_reading` entering e-reading returns exactly
that mode, and its `apply` computes the `u8` subtraction 0 - 1, which wraps
to hardware grayscale 255 (and panics in debug builds). -/
theorem C10_ereading_underflow :
    (CallbackState.snapshot
        (mode_callback 27 ((0 * 256 + 60) - 206) none initCallbackState)).ereading_grayscale
      = 0 ∧
    EReadingMode.from_controller_state
        (CallbackState.snapshot
          (mode_callback 27 ((0 * 256 + 60) - 206) none initCallbackState))
      = .eReading 0 60 ∧
    (MockController.toggle_e_reading
        (CallbackState.snapshot
          (mode_callback 27 ((0 * 256 + 60) - 206) none initCallbackState))).1
      = .eReading 0 60 ∧
    EReadingMode.hw_grayscale 0 = 255 := by
  decide

/-- C1: resolving a `ControllerState` snapshot through `mode_from_state`
follows exactly the table (1,false) → Normal, (2,false) → Vivid,
(6,false) → Manual with the snapshot's slider, (7,false) → EyeCare with
the snapshot's level, (anything, true) → EReading with the snapshot's
grayscale and temperature while storing the snapshot's mode identifier as
the last non-e-reading mode, and every remaining combination fails with
`ModeNotDetected` leaving the callback state untouched. -/
theorem C1_snapshot_mode_resolution (st : ControllerState) (g : CallbackState) :
    (st.mode_id = 1 → st.is_monochrome = false →
      mode_from_state st g = (.ok .normal, g)) ∧
    (st.mode_id = 2 → st.is_monochrome = false →
      mode_from_state st g = (.ok .vivid, g)) ∧
    (st.mode_id = 6 → st.is_monochrome = false →
      mode_from_state st g = (.ok (.manual st.manual_slider), g)) ∧
    (st.mode_id = 7 → st.is_monochrome = false →
      mode_from_state st g = (.ok (.eyeCare st.eyecare_level), g)) ∧
    (st.is_monochrome = true →
      mode_from_state st g =
        (.ok (.eReading st.ereading_grayscale st.ereading_temp),
         { g with last_non_ereading_mode := st.mode_id })) ∧
    (st.is_monochrome = false →
      st.mode_id ≠ 1 → st.mode_id ≠ 2 → st.mode_id ≠ 6 → st.mode_id ≠ 7 →
      mode_from_state st g = (.error .ModeNotDetected, g)) := by
  obtain ⟨mid, mono, dim, man, eye, egs, etemp, last⟩ := st
  refine ⟨?_, ?_, ?_, ?_, ?_, ?_⟩
  · intro h1 h2
    subst h1; subst h2
    rfl
  · intro h1 h2
    subst h1; subst h2
    rfl
  · intro h1 h2
    subst h1; subst h2
    rfl
  · intro h1 h2
    subst h1; subst h2
    rfl
  · intro h
    subst h
    unfold mode_from_state
    split
    any_goals simp_all [EReadingMode.from_controller_state]
  · intro h h1 h2 h6 h7
    subst h
    unfold mode_from_state
    split
    any_goals simp_all

/-- Witness for C1: the Manual arm at slider 33, the EReading arm with its
side effect, and the ModeNotDetected arm at mode identifier 3. -/
theorem C1_snapshot_mode_resolution_witness :
    mode_from_state ⟨6, false, 70, 33, 2, 3, 50, 1⟩ initCallbackState =
      (.ok (.manual 33), initCallbackState) ∧
    mode_from_state ⟨7, true, 70, 33, 2, 3, 50, 1⟩ initCallbackState =
      (.ok (.eReading 3 50), { initCallbackState with last_non_ereading_mode := 7 }) ∧
    mode_from_state ⟨3, false, 70, 33, 2, 3, 50, 1⟩ initCallbackState =
      (.error .ModeNotDetected, initCallbackState) :=
  ⟨(C1_snapshot_mode_resolution ⟨6, false, 70, 33, 2, 3, 50, 1⟩ initCallbackState).2.2.1
      rfl rfl,
   (C1_snapshot_mode_resolution ⟨7, true, 70, 33, 2, 3, 50, 1⟩ initCallbackState).2.2.2.2.1
      rfl,
   (C1_snapshot_mode_resolution ⟨3, false, 70, 33, 2, 3, 50, 1⟩ initCallbackState).2.2.2.2.2
      rfl (by decide) (by decide) (by decide) (by decide)⟩

/-- C2: toggling from any non-e-reading state captures the currently active
mode identifier into the last-non-e-reading field while constructing and
applying the e-reading mode built from the snapshot (the mode identifier
itself is left in place and the monochrome flag is raised); consequently the
double toggle from (mode 7, EyeCare level 3, monochrome off) restores EyeCare
with level 3 and mode identifier 7. -/
theorem C2_capture_before_ereading (st : ControllerState)
    (h : st.is_monochrome = false) :
    (MockController.toggle_e_reading st).1 = EReadingMode.from_controller_state st ∧
    (MockController.toggle_e_reading st).2.last_non_ereading_mode = st.mode_id ∧
    (MockController.toggle_e_reading st).2.is_monochrome = true ∧
    (MockController.toggle_e_reading st).2.mode_id = st.mode_id ∧
    ((MockController.toggle_e_reading (MockController.toggle_e_reading
        { mockInitialState with mode_id := 7, eyecare_level := 3 }).2).1 = .eyeCare 3 ∧
     (MockController.toggle_e_reading (MockController.toggle_e_reading
        { mockInitialState with mode_id := 7, eyecare_level := 3 }).2).2.mode_id = 7 ∧
     (MockController.toggle_e_reading (MockController.toggle_e_reading
        { mockInitialState with mode_id := 7, eyecare_level := 3 }).2).2.is_monochrome
       = false) := by
  refine ⟨?_, ?_, ?_, ?_, by decide⟩ <;>
    simp [MockController.toggle_e_reading, MockController.set_mode, h,
      EReadingMode.from_controller_state, DisplayMode.is_ereading]

/-- Witness for C2 from the mock's initial state (mode identifier 1,
monochrome off). -/
theorem C2_capture_before_ereading_witness :
    (MockController.toggle_e_reading mockInitialState).1 = .eReading 4 50 ∧
    (MockController.toggle_e_reading mockInitialState).2.last_non_ereading_mode = 1 :=
  ⟨(C2_capture_before_ereading mockInitialState rfl).1,
   (C2_capture_before_ereading mockInitialState rfl).2.1⟩

/-- C3: toggling from any e-reading state returns and applies the mode given
by `restore_last_mode`, whose fixed mapping sends identifier 2 to Vivid, 6 to
Manual with the snapshot's slider, 7 to EyeCare with the snapshot's level and
anything else to Normal; and the double toggle from the mock initial state
(mode identifier 1, Normal) first produces the e-reading mode and then
restores Normal with mode identifier 1. -/
theorem C3_toggle_restores_last_mode (st : ControllerState)
    (h : st.is_monochrome = true) :
    (MockController.toggle_e_reading st).1 = restore_last_mode st ∧
    (MockController.toggle_e_reading st).2 =
      MockController.set_mode st (restore_last_mode st) ∧
    (st.last_non_ereading_mode = 2 → restore_last_mode st = .vivid) ∧
    (st.last_non_ereading_mode = 6 →
      restore_last_mode st = .manual st.manual_slider) ∧
    (st.last_non_ereading_mode = 7 →
      restore_last_mode st = .eyeCare st.eyecare_level) ∧
    (st.last_non_ereading_mode ≠ 2 → st.last_non_ereading_mode ≠ 6 →
      st.last_non_ereading_mode ≠ 7 → restore_last_mode st = .normal) ∧
    ((MockController.toggle_e_reading mockInitialState).1 = .eReading 4 50 ∧
     (MockController.toggle_e_reading (MockController.toggle_e_reading
        mockInitialState).2).1 = .normal ∧
     (MockController.toggle_e_reading (MockController.toggle_e_reading
        mockInitialState).2).2.mode_id = 1) := by
  obtain ⟨mid, mono, dim, man, eye, egs, etemp, last⟩ := st
  subst h
  refine ⟨?_, ?_, ?_, ?_, ?_, ?_, by decide⟩
  · simp [MockController.toggle_e_reading, restore_last_mode,
      ManualMode.from_controller_state, EyeCareMode.from_controller_state]
  · simp [MockController.toggle_e_reading, restore_last_mode,
      ManualMode.from_controller_state, EyeCareMode.from_controller_state]
  · intro h2
    subst h2
    rfl
  · intro h6
    subst h6
    rfl
  · intro h7
    subst h7
    rfl
  · intro h2 h6 h7
    unfold restore_last_mode
    split
    any_goals simp_all

/-- Witness for C3 from an e-reading state whose last non-e-reading mode is
6 (Manual) with slider 42. -/
theorem C3_toggle_restores_last_mode_witness :
    (MockController.toggle_e_reading ⟨1, true, 70, 42, 2, 4, 50, 6⟩).1 = .manual 42 :=
  (C3_toggle_restores_last_mode ⟨1, true, 70, 42, 2, 4, 50, 6⟩ rfl).1

/-- C4: `set_dimming` hands the native entry point exactly the level clamped
to [40,100]; a zero native result code immediately writes the clamped level
into the dimming atomic and succeeds, and any nonzero result code r is
returned as `DimmingFailed r` with the callback state (so the snapshot's
dimming field) unchanged. -/
theorem C4_set_dimming_clamps (native : Int → Int) (g : CallbackState)
    (level : Int) :
    (set_dimming native g level).nativeArgs = [clamp_i32 level 40 100] ∧
    (∀ v ∈ (set_dimming native g level).nativeArgs, 40 ≤ v ∧ v ≤ 100) ∧
    (native (clamp_i32 level 40 100) = 0 →
      (set_dimming native g level).result = .ok () ∧
      (set_dimming native g level).state =
        { g with current_dimming := clamp_i32 level 40 100 }) ∧
    (∀ r : Int, native (clamp_i32 level 40 100) = r → r ≠ 0 →
      (set_dimming native g level).result = .error (.DimmingFailed r) ∧
      (set_dimming native g level).state = g) := by
  have hb : 40 ≤ clamp_i32 level 40 100 ∧ clamp_i32 level 40 100 ≤ 100 := by
    unfold clamp_i32
    constructor
    · exact le_max_left _ _
    · exact max_le (by norm_num) (min_le_right _ _)
  refine ⟨?_, ?_, fun h0 => ?_, fun r hr hr0 => ?_⟩
  · simp only [set_dimming]
    split <;> rfl
  · intro v hv
    simp only [set_dimming] at hv
    split at hv <;> simp at hv <;> subst hv <;> exact hb
  · simp only [set_dimming]
    rw [if_pos h0]
    exact ⟨rfl, rfl⟩
  · subst hr
    simp only [set_dimming]
    rw [if_neg hr0]
    exact ⟨rfl, rfl⟩

/-- Witness for C4 at level 150 (clamped to 100) against an always-zero
native result and against a native result code 7. -/
theorem C4_set_dimming_clamps_witness :
    (set_dimming (fun _ => 0) initCallbackState 150).result = .ok () ∧
    (set_dimming (fun _ => 0) initCallbackState 150).nativeArgs = [100] ∧
    (set_dimming (fun _ => 7) initCallbackState 150).result =
      .error (.DimmingFailed 7) ∧
    (set_dimming (fun _ => 7) initCallbackState 150).state = initCallbackState := by
  refine ⟨((C4_set_dimming_clamps (fun _ => 0) initCallbackState 150).2.2.1 rfl).1,
    ?_,
    ((C4_set_dimming_clamps (fun _ => 7) initCallbackState 150).2.2.2 7 rfl
      (by decide)).1,
    ((C4_set_dimming_clamps (fun _ => 7) initCallbackState 150).2.2.2 7 rfl
      (by decide)).2⟩
  rw [(C4_set_dimming_clamps (fun _ => 0) initCallbackState 150).1]
  decide

/-- C5: creating a controller while the instance guard is held fails with
`AlreadyInitialized` and leaves the guard held; when initialisation after
acquiring the guard fails, the error is returned with the guard released;
a successful creation holds the guard; and creation succeeds again after a
drop released the guard. -/
theorem C5_instance_guard (initResult : Except ControllerError Unit)
    (e : ControllerError) :
    controller_new initResult true = (.error .AlreadyInitialized, true) ∧
    controller_new (.error e) false = (.error e, false) ∧
    controller_new (.ok ()) false = (.ok (), true) ∧
    (∀ guard : Bool, controller_new (.ok ()) (controller_drop guard) = (.ok (), true)) := by
  refine ⟨?_, rfl, rfl, fun guard => rfl⟩
  unfold controller_new
  rw [if_pos rfl]

/-- Witness for C5 at a failing initialisation (`RpcInitFailed`). -/
theorem C5_instance_guard_witness :
    controller_new (.error .RpcInitFailed) true = (.error .AlreadyInitialized, true) ∧
    controller_new (.error .RpcInitFailed) false = (.error .RpcInitFailed, false) ∧
    controller_new (.ok ()) (controller_drop true) = (.ok (), true) :=
  ⟨(C5_instance_guard (.error .RpcInitFailed) .RpcInitFailed).1,
   (C5_instance_guard (.ok ()) .RpcInitFailed).2.1,
   (C5_instance_guard (.ok ()) .RpcInitFailed).2.2.2 true⟩

/-- C6 counterexample: with a native session in which exactly the color-mode
query fails, issuing the mode query alone surfaces a typed error, yet
`sync_all_sliders` — which issues that same failing mode query first —
returns success, so this native-call failure is silently swallowed inside
`sync_all_sliders` (the source discards it with `let _ =`). -/
theorem C6_swallowed_mode_query_counterexample :
    (get_current_mode colorModeFailingLookup initCallbackState).1 =
      .error .DllLoad ∧
    (sync_all_sliders colorModeFailingLookup initCallbackState).1 = .ok () := by
  decide

/-- C6 amended: the result of `sync_all_sliders` is exactly the result of
`refresh_sliders` — the outcome of its internal mode query is discarded, so a
native-call failure there is not surfaced by `sync_all_sliders` (only by
`get_current_mode` itself, which does propagate its native-call failure);
failures of the slider queries inside `refresh_sliders` are propagated. -/
theorem C6_sync_propagation (lookup : String → Except ControllerError Int)
    (g : CallbackState) (e : ControllerError) :
    (sync_all_sliders lookup g).1 = refresh_sliders lookup ∧
    (sync_all_sliders lookup g).2 = (get_current_mode lookup g).2 ∧
    (lookup "MyOptGetSplendidManualModeFunc" = .error e →
      refresh_sliders lookup = .error e) ∧
    (lookup "MyOptGetSplendidColorModeFunc" = .error e →
      (get_current_mode lookup g).1 = .error e) := by
  refine ⟨?_, ?_, fun h => ?_, fun h => ?_⟩
  · simp only [sync_all_sliders]
    cases h : refresh_sliders lookup <;> simp [h]
  · simp only [sync_all_sliders]
    cases h : refresh_sliders lookup <;> simp [h]
  · unfold refresh_sliders call_rpc_get
    rw [h]
  · unfold get_current_mode call_rpc_get
    rw [h]

/-- Witness for C6 amended: the sync result coincides with the refresh
result under the lookup that fails the color-mode query, a refresh under an
always-failing lookup surfaces the error, and the mode query surfaces its
own failure. -/
theorem C6_sync_propagation_witness :
    (sync_all_sliders colorModeFailingLookup initCallbackState).1 =
      refresh_sliders colorModeFailingLookup ∧
    refresh_sliders (fun _ => .error .DllLoad) = .error .DllLoad ∧
    (get_current_mode colorModeFailingLookup initCallbackState).1 =
      .error .DllLoad :=
  ⟨(C6_sync_propagation colorModeFailingLookup initCallbackState .DllLoad).1,
   (C6_sync_propagation (fun _ => .error .DllLoad) initCallbackState
      .DllLoad).2.2.1 rfl,
   (C6_sync_propagation colorModeFailingLookup initCallbackState
      .DllLoad).2.2.2 (by decide)⟩

/-- Rounding half away from zero of a quotient is monotone in a nonnegative
numerator for a fixed positive denominator. -/
theorem roundHalfAway_mono_of_nonneg {den a b : Int} (hden : 0 < den)
    (ha : 0 ≤ a) (hab : a ≤ b) : roundHalfAway a den ≤ roundHalfAway b den := by
  unfold roundHalfAway
  rw [if_pos ha, if_pos (ha.trans hab)]
  exact Int.ediv_le_ediv (by omega) (by omega)

/-- Exhaustive check of the round-trip identity on every percentage in
[0,100]. -/
theorem percent_roundtrip_bounded : ∀ n : Nat, n < 101 →
    percent_to_dimming (dimming_to_percent (percent_to_dimming (n : Int))) =
      percent_to_dimming (n : Int) := by
  decide

/-- C7: for every percentage p in [0,100] the dimming conversion is
idempotent after one round trip, `dimming_to_percent` is monotone on all
inputs (it clamps internally), and `percent_to_dimming` is monotone on
percentages up to 100. -/
theorem C7_dimming_conversion (p q s t : Int) (hp0 : 0 ≤ p) (hp1 : p ≤ 100)
    (hq1 : q ≤ 100) (hpq : p ≤ q) (hst : s ≤ t) :
    percent_to_dimming (dimming_to_percent (percent_to_dimming p)) =
      percent_to_dimming p ∧
    dimming_to_percent s ≤ dimming_to_percent t ∧
    percent_to_dimming p ≤ percent_to_dimming q := by
  refine ⟨?_, ?_, ?_⟩
  · have hn : ((p.toNat : Nat) : Int) = p := by omega
    rw [← hn]
    exact percent_roundtrip_bounded p.toNat (by omega)
  · have hc : clamp_i32 s 40 100 ≤ clamp_i32 t 40 100 := by
      unfold clamp_i32
      exact max_le_max le_rfl (min_le_min hst le_rfl)
    have h40 : 40 ≤ clamp_i32 s 40 100 := le_max_left _ _
    unfold dimming_to_percent
    exact roundHalfAway_mono_of_nonneg (by norm_num)
      (mul_nonneg (by omega) (by norm_num))
      (mul_le_mul_of_nonneg_right (by omega) (by norm_num))
  · have := @roundHalfAway_mono_of_nonneg 100 (p * 60) (q * 60)
      (by norm_num) (mul_nonneg hp0 (by norm_num))
      (mul_le_mul_of_nonneg_right hpq (by norm_num))
    unfold percent_to_dimming
    omega

/-- Witness for C7 at p = 33, q = 66, s = 10, t = 150. -/
theorem C7_dimming_conversion_witness :
    percent_to_dimming (dimming_to_percent (percent_to_dimming 33)) =
      percent_to_dimming 33 ∧
    dimming_to_percent 10 ≤ dimming_to_percent 150 ∧
    percent_to_dimming 33 ≤ percent_to_dimming 66 :=
  C7_dimming_conversion 33 66 10 150 (by decide) (by decide) (by decide)
    (by decide) (by decide)

end Azizo
